import Mathlib

/-!
Shallow embedding of the SCEPy core (scepy/builders.py, scepy/envelope.py,
scepy/message.py): CMS pkiMessage construction, enveloped-data encryption and
message parsing/decryption. The cryptographic primitives supplied by the
`cryptography` backend are abstracted into an explicit `CryptoOps` record of
functions, and the DER serialisation performed by the external asn1crypto
library is modelled as a deterministic tagged, length-prefixed encoding.
-/

abbrev Bytes := List Nat

/-- Byte-wise xor of two byte strings (`zipWith`, truncating to the shorter),
as performed inside CBC mode. -/
def xorBytes (a b : Bytes) : Bytes := List.zipWith Nat.xor a b

/-- Helper for `chunksOf`, structurally recursive on a fuel bound so that it
reduces definitionally; for a positive block size, fuel equal to the input
length always suffices. -/
def chunksOfAux (bs : Nat) : Nat → Bytes → List Bytes
  | _, [] => []
  | 0, _ :: _ => []
  | fuel + 1, x :: xs => (x :: xs).take bs :: chunksOfAux bs fuel ((x :: xs).drop bs)

/-- Split a byte string into consecutive blocks of `bs` bytes (the final block
may be short when the input length is not a multiple of `bs`). -/
def chunksOf (bs : Nat) (b : Bytes) : List Bytes :=
  chunksOfAux bs b.length b

/-- PKCS#7 padding as applied by the `cryptography` PKCS7 padder used in
`envelope.py`: always appends between 1 and `bs` bytes, each equal to the pad
length. -/
def pkcs7pad (bs : Nat) (data : Bytes) : Bytes :=
  let padLen := bs - data.length % bs
  data ++ List.replicate padLen padLen

/-- CBC encryption of a block list under an abstract one-block encryption. -/
def cbcEncryptBlocks (enc : Bytes → Bytes) (prev : Bytes) : List Bytes → List Bytes
  | [] => []
  | b :: rest =>
    let c := enc (xorBytes prev b)
    c :: cbcEncryptBlocks enc c rest

/-- CBC decryption of a block list under an abstract one-block decryption. -/
def cbcDecryptBlocks (dec : Bytes → Bytes) (prev : Bytes) : List Bytes → List Bytes
  | [] => []
  | c :: rest => xorBytes prev (dec c) :: cbcDecryptBlocks dec c rest

def cbcEncrypt (enc : Bytes → Bytes) (bs : Nat) (iv : Bytes) (data : Bytes) : Bytes :=
  (cbcEncryptBlocks enc iv (chunksOf bs data)).flatten

def cbcDecrypt (dec : Bytes → Bytes) (bs : Nat) (iv : Bytes) (data : Bytes) : Bytes :=
  (cbcDecryptBlocks dec iv (chunksOf bs data)).flatten

/-- Model of `os.urandom` reads: `n` fresh bytes drawn starting at position
`off` of the random stream `rng`. Successive reads in one function use
successive offsets. -/
def urandom (rng : Nat → Nat) (off n : Nat) : Bytes :=
  (List.range n).map fun i => rng (off + i)

/-- Abstract cryptographic primitives (the `cryptography` backend): hashing by
algorithm name, RSA-PKCS1v15 signing (the primitive hashes its message with
the named digest internally), RSA-PKCS1v15 key transport encrypt/decrypt, and
a raw keyed block cipher (`"aes"` or `"tripledes"`) over one block. -/
structure CryptoOps where
  hash : String → Bytes → Bytes
  rsaSign : Nat → String → Bytes → Bytes
  rsaEncrypt : Nat → Bytes → Bytes
  rsaDecrypt : Nat → Bytes → Bytes
  blockEnc : String → Bytes → Bytes → Bytes
  blockDec : String → Bytes → Bytes → Bytes

/-- Model DER encoding of a string (length-prefixed code points), standing in
for the asn1crypto serialisation of ASN.1 string values. -/
def strDump (s : String) : Bytes := s.length :: s.toList.map Char.toNat

/-- Model DER encoding of an octet string (length-prefixed). -/
def bytesDump (b : Bytes) : Bytes := b.length :: b

/-- Model DER encoding of a sequence of already-encoded parts. -/
def listDump (l : List Bytes) : Bytes := l.length :: l.flatten

structure IssuerAndSerialNumber where
  issuer : Bytes
  serial_number : Nat
  deriving DecidableEq, Repr

/-- An X.509 certificate, reduced to the fields the source reads: its
IssuerAndSerialNumber identity and an opaque RSA public key handle. -/
structure Certificate where
  ias : IssuerAndSerialNumber
  public_key : Nat
  deriving DecidableEq, Repr

def iasDump (i : IssuerAndSerialNumber) : Bytes := bytesDump i.issuer ++ [i.serial_number]

def certDump (c : Certificate) : Bytes := iasDump c.ias ++ [c.public_key]

/-- The CMS attribute types the source registers on `CMSAttribute` via
`SCEPCMSAttributeType` (scepy/asn1.py is referenced by the source; the OID
names here are exactly the ones builders.py and message.py use). -/
inductive AttrType
  | content_type
  | message_digest
  | message_type
  | pki_status
  | fail_info
  | sender_nonce
  | recipient_nonce
  | transaction_id
  deriving DecidableEq, Repr

def AttrType.code : AttrType → Nat
  | .content_type => 0
  | .message_digest => 1
  | .message_type => 2
  | .pki_status => 3
  | .fail_info => 4
  | .sender_nonce => 5
  | .recipient_nonce => 6
  | .transaction_id => 7

/-- An attribute value: asn1crypto PrintableString, OctetString, or the
ContentType object identifier. -/
inductive AttrValue
  | str (s : String)
  | octets (b : Bytes)
  | oid (s : String)
  deriving DecidableEq, Repr

def AttrValue.dump : AttrValue → Bytes
  | .str s => 0 :: strDump s
  | .octets b => 1 :: bytesDump b
  | .oid s => 2 :: strDump s

structure CMSAttribute where
  type : AttrType
  values : List AttrValue
  deriving DecidableEq, Repr

def attrDump (a : CMSAttribute) : Bytes := a.type.code :: listDump (a.values.map AttrValue.dump)

/-- Model of `CMSAttributes(...).dump()`: the DER of the attribute collection
in list order. -/
def attrsDump (l : List CMSAttribute) : Bytes := listDump (l.map attrDump)

/-- The `.native` view of an attribute value, as read by the parser. -/
inductive Native
  | str (s : String)
  | octets (b : Bytes)
  deriving DecidableEq, Repr

def AttrValue.native : AttrValue → Native
  | .str s => .str s
  | .octets b => .octets b
  | .oid s => .str s

/-- Modelled from the spec: the repository module `scepy/enums.py` is not
under `src/`; SCEP messageType values per the spec attribute table
("3" PKCSReq, "17" RenewalReq, "19" UpdateReq, "20" GetCertInitial / CertPoll,
"22" CertRep). -/
inductive MessageType
  | PKCSReq
  | RenewalReq
  | UpdateReq
  | GetCertInitial
  | CertRep
  deriving DecidableEq, Repr

def MessageType.value : MessageType → String
  | .PKCSReq => "3"
  | .RenewalReq => "17"
  | .UpdateReq => "19"
  | .GetCertInitial => "20"
  | .CertRep => "22"

/-- `MessageType(native)` as called by the parser: succeeds exactly on the
five registered string values. -/
def MessageType.ofNative : Native → Option MessageType
  | .str "3" => some .PKCSReq
  | .str "17" => some .RenewalReq
  | .str "19" => some .UpdateReq
  | .str "20" => some .GetCertInitial
  | .str "22" => some .CertRep
  | _ => none

/-- Modelled from the spec: `scepy/enums.py` is not under `src/`; pkiStatus
values "0" SUCCESS, "2" FAILURE, "3" PENDING. -/
inductive PKIStatus
  | SUCCESS
  | FAILURE
  | PENDING
  deriving DecidableEq, Repr

def PKIStatus.value : PKIStatus → String
  | .SUCCESS => "0"
  | .FAILURE => "2"
  | .PENDING => "3"

/-- Modelled from the spec: `scepy/enums.py` is not under `src/`; failInfo
values "0" badAlg .. "4" badCertId. -/
inductive FailInfo
  | badAlg
  | badMessageCheck
  | badRequest
  | badTime
  | badCertId
  deriving DecidableEq, Repr

def FailInfo.value : FailInfo → String
  | .badAlg => "0"
  | .badMessageCheck => "1"
  | .badRequest => "2"
  | .badTime => "3"
  | .badCertId => "4"

/-- CMS SignerIdentifier CHOICE: the source only ever produces and accepts
issuer_and_serial_number (message.py asserts the isinstance). -/
inductive SignerIdentifier
  | issuer_and_serial_number (ias : IssuerAndSerialNumber)
  | subject_key_identifier (b : Bytes)
  deriving DecidableEq, Repr

structure SignerInfo where
  version : Nat
  sid : SignerIdentifier
  digest_algorithm : String
  signed_attrs : Option (List CMSAttribute)
  signature_algorithm : String
  signature : Bytes
  deriving DecidableEq, Repr

def sidDump : SignerIdentifier → Bytes
  | .issuer_and_serial_number i => 0 :: iasDump i
  | .subject_key_identifier b => 1 :: bytesDump b

def attrsOptDump : Option (List CMSAttribute) → Bytes
  | none => [0]
  | some l => 1 :: attrsDump l

def signerInfoDump (si : SignerInfo) : Bytes :=
  si.version :: sidDump si.sid ++ strDump si.digest_algorithm
    ++ attrsOptDump si.signed_attrs ++ strDump si.signature_algorithm
    ++ bytesDump si.signature

structure RecipientInfo where
  version : Nat
  rid : IssuerAndSerialNumber
  key_encryption_algorithm : String
  encrypted_key : Bytes
  deriving DecidableEq, Repr

structure EncryptedContentInfo where
  content_type : String
  algorithm : String
  iv : Bytes
  encrypted_content : Bytes
  deriving DecidableEq, Repr

structure EnvelopedData where
  version : Nat
  recipient_infos : List RecipientInfo
  encrypted_content_info : EncryptedContentInfo
  deriving DecidableEq, Repr

def recipientInfoDump (r : RecipientInfo) : Bytes :=
  r.version :: iasDump r.rid ++ strDump r.key_encryption_algorithm
    ++ bytesDump r.encrypted_key

def eciDump (e : EncryptedContentInfo) : Bytes :=
  strDump e.content_type ++ strDump e.algorithm ++ bytesDump e.iv
    ++ bytesDump e.encrypted_content

def envelopedDataDump (e : EnvelopedData) : Bytes :=
  e.version :: listDump (e.recipient_infos.map recipientInfoDump)
    ++ eciDump e.encrypted_content_info

def envelopedDataOptDump : Option EnvelopedData → Bytes
  | none => [0]
  | some e => 1 :: envelopedDataDump e

/-- Model of the asn1crypto DER serialisation of a `ContentInfo` whose content
is already given as bytes: tagged and length-prefixed, deterministic by
construction. -/
def contentInfoDump (content_type : String) (content : Bytes) : Bytes :=
  strDump content_type ++ bytesDump content

/-- asn1crypto `EncryptionAlgorithm.encryption_cipher` for the algorithm ids
the source uses. -/
def encryptionCipher : String → String
  | "tripledes_3key" => "tripledes"
  | "aes128_cbc" => "aes"
  | "aes256_cbc" => "aes"
  | _ => "unknown"

/-- Block size in bytes of the `cryptography` cipher classes: AES 16,
TripleDES 8. -/
def cipherBlockSize : String → Nat
  | "aes" => 16
  | _ => 8

inductive EnvError
  | valueError
  | typeError
  deriving DecidableEq, Repr

structure PKCSPKIEnvelopeBuilder where
  data : Option Bytes
  encryption_algorithm_id : Option String
  recipients : List Certificate
  deriving DecidableEq, Repr

def PKCSPKIEnvelopeBuilder.init : PKCSPKIEnvelopeBuilder :=
  { data := none, encryption_algorithm_id := none, recipients := [] }

/-- `PKCSPKIEnvelopeBuilder.encrypt`: stores the plaintext and maps the
`algorithm` option to an EncryptionAlgorithmId; any other value (including
the `None` default) raises ValueError. -/
def PKCSPKIEnvelopeBuilder.encrypt (b : PKCSPKIEnvelopeBuilder) (data : Bytes)
    (algorithm : Option String) : Except EnvError PKCSPKIEnvelopeBuilder :=
  match algorithm with
  | some "3des" =>
    .ok { b with data := some data, encryption_algorithm_id := some "tripledes_3key" }
  | some "aes128" =>
    .ok { b with data := some data, encryption_algorithm_id := some "aes128_cbc" }
  | some "aes256" =>
    .ok { b with data := some data, encryption_algorithm_id := some "aes256_cbc" }
  | _ => .error .valueError

def PKCSPKIEnvelopeBuilder.add_recipient (b : PKCSPKIEnvelopeBuilder)
    (certificate : Certificate) : PKCSPKIEnvelopeBuilder :=
  { b with recipients := b.recipients ++ [certificate] }

/-- `PKCSPKIEnvelopeBuilder._encrypt_data`: draws the symmetric key and IV
from the random stream exactly as the source draws from `os.urandom`
(`os.urandom(8)` key and 8-byte IV for tripledes_3key, 16/16 for aes128_cbc,
32/16 for aes256_cbc), applies PKCS#7 padding at the cipher block size and
CBC-encrypts. An algorithm id outside the three branches leaves the key
unset and the cipher construction raises (TypeError). -/
def PKCSPKIEnvelopeBuilder.encrypt_data (ops : CryptoOps) (rng : Nat → Nat)
    (alg : String) (data : Bytes) : Except EnvError (Bytes × Bytes × Bytes) :=
  match alg with
  | "tripledes_3key" =>
    let symkey := urandom rng 0 8
    let iv := urandom rng 8 8
    let padded := pkcs7pad 8 data
    .ok (symkey, iv, cbcEncrypt (ops.blockEnc "tripledes" symkey) 8 iv padded)
  | "aes128_cbc" =>
    let symkey := urandom rng 0 16
    let iv := urandom rng 16 16
    let padded := pkcs7pad 16 data
    .ok (symkey, iv, cbcEncrypt (ops.blockEnc "aes" symkey) 16 iv padded)
  | "aes256_cbc" =>
    let symkey := urandom rng 0 32
    let iv := urandom rng 32 16
    let padded := pkcs7pad 16 data
    .ok (symkey, iv, cbcEncrypt (ops.blockEnc "aes" symkey) 16 iv padded)
  | _ => .error .typeError

/-- `PKCSPKIEnvelopeBuilder._build_recipient_info`: RSA-PKCS1v15-encrypts the
symmetric key under the recipient public key; KeyTransRecipientInfo with
version 0, rid by IssuerAndSerialNumber, key encryption algorithm rsa. -/
def PKCSPKIEnvelopeBuilder.build_recipient_info (ops : CryptoOps)
    (symmetric_key : Bytes) (recipient : Certificate) : RecipientInfo :=
  { version := 0
    rid := recipient.ias
    key_encryption_algorithm := "rsa"
    encrypted_key := ops.rsaEncrypt recipient.public_key symmetric_key }

/-- `PKCSPKIEnvelopeBuilder.finalize`: encrypts the stored data and wraps the
symmetric key for every recipient in the stored list. Note the recipient list
is mapped as-is: there is no emptiness check anywhere in the builder. -/
def PKCSPKIEnvelopeBuilder.finalize (ops : CryptoOps) (rng : Nat → Nat)
    (b : PKCSPKIEnvelopeBuilder) : Except EnvError (EnvelopedData × Bytes × Bytes) :=
  match b.data, b.encryption_algorithm_id with
  | some data, some alg =>
    match PKCSPKIEnvelopeBuilder.encrypt_data ops rng alg data with
    | .error e => .error e
    | .ok (sym_key, iv, ciphertext) =>
      let eci : EncryptedContentInfo :=
        { content_type := "data"
          algorithm := alg
          iv := iv
          encrypted_content := ciphertext }
      let recipients := b.recipients.map (PKCSPKIEnvelopeBuilder.build_recipient_info ops sym_key)
      .ok ({ version := 1, recipient_infos := recipients, encrypted_content_info := eci },
        sym_key, iv)
  | _, _ => .error .typeError

/-- The digest algorithms accepted by the `Signer` constructor dictionary. -/
inductive HashAlgo
  | sha1
  | sha256
  | sha512
  deriving DecidableEq, Repr

def HashAlgo.native : HashAlgo → String
  | .sha1 => "sha1"
  | .sha256 => "sha256"
  | .sha512 => "sha512"

structure Signer where
  certificate : Certificate
  private_key : Nat
  digest_algorithm_id : HashAlgo
  deriving DecidableEq, Repr

def Signer.sid (s : Signer) : SignerIdentifier :=
  .issuer_and_serial_number s.certificate.ias

/-- The `ContentType('data')` value passed for the content-type attribute. -/
def contentTypeData : AttrValue := .oid "data"

/-- `Signer.sign`: assigns the received attribute list to the signer, prepends
the message-digest and then the content-type attribute at its front (the
source does two in-place `insert(0, ...)` calls on the very list object the
builder passed in), RSA-PKCS1v15-signs the DER of the resulting attribute set
with the signer own digest algorithm, and returns the SignerInfo together
with the (mutated, shared) attribute list. -/
def Signer.sign (ops : CryptoOps) (s : Signer) (_data : Bytes)
    (content_type : AttrValue) (content_digest : Bytes)
    (cms_attributes : List CMSAttribute) : SignerInfo × List CMSAttribute :=
  let attrs1 : List CMSAttribute :=
    { type := .message_digest, values := [.octets content_digest] } :: cms_attributes
  let attrs2 : List CMSAttribute :=
    { type := .content_type, values := [content_type] } :: attrs1
  let signature := ops.rsaSign s.private_key s.digest_algorithm_id.native (attrsDump attrs2)
  ({ version := 1
     sid := s.sid
     digest_algorithm := s.digest_algorithm_id.native
     signed_attrs := some attrs2
     signature_algorithm := "rsassa_pkcs1v15"
     signature := signature }, attrs2)

inductive BuildError
  | missingFailInfo
  deriving DecidableEq, Repr

structure PKIMessageBuilder where
  signers : List Signer
  cms_attributes : List CMSAttribute
  certificates : List Certificate
  pki_envelope : Option EnvelopedData
  deriving DecidableEq, Repr

def PKIMessageBuilder.init : PKIMessageBuilder :=
  { signers := [], cms_attributes := [], certificates := [], pki_envelope := none }

def PKIMessageBuilder.add_signer (b : PKIMessageBuilder) (signer : Signer) :
    PKIMessageBuilder :=
  { b with
    signers := b.signers ++ [signer]
    certificates := b.certificates ++ [signer.certificate] }

def PKIMessageBuilder.add_certificates (b : PKIMessageBuilder)
    (certs : List Certificate) : PKIMessageBuilder :=
  { b with certificates := b.certificates ++ certs }

def PKIMessageBuilder.message_type (b : PKIMessageBuilder) (mt : MessageType) :
    PKIMessageBuilder :=
  { b with cms_attributes :=
      b.cms_attributes ++ [{ type := .message_type, values := [.str mt.value] }] }

def PKIMessageBuilder.set_pki_envelope (b : PKIMessageBuilder)
    (envelope : EnvelopedData) : PKIMessageBuilder :=
  { b with pki_envelope := some envelope }

/-- `PKIMessageBuilder.pki_status`: appends the pki_status attribute; when the
status is FAILURE and no failure_info is given it raises
`ValueError('You cannot specify failure without failure info')` — the spec
MissingFailInfo. This is a pure attribute setter: no `CryptoOps` is involved,
so the rejection happens before any cryptography runs. -/
def PKIMessageBuilder.pki_status (b : PKIMessageBuilder) (status : PKIStatus)
    (failure_info : Option FailInfo) : Except BuildError PKIMessageBuilder :=
  let b1 := { b with cms_attributes :=
    b.cms_attributes ++ [{ type := .pki_status, values := [.str status.value] }] }
  match status with
  | .FAILURE =>
    match failure_info with
    | none => .error .missingFailInfo
    | some fi =>
      .ok { b1 with cms_attributes :=
        b1.cms_attributes ++ [{ type := .fail_info, values := [.str fi.value] }] }
  | _ => .ok b1

def PKIMessageBuilder.sender_nonce (b : PKIMessageBuilder) (nonce : Option Bytes)
    (rng : Nat → Nat) : PKIMessageBuilder :=
  let n := match nonce with
    | some n => n
    | none => urandom rng 0 16
  { b with cms_attributes :=
      b.cms_attributes ++ [{ type := .sender_nonce, values := [.octets n] }] }

def PKIMessageBuilder.recipient_nonce (b : PKIMessageBuilder) (nonce : Bytes) :
    PKIMessageBuilder :=
  { b with cms_attributes :=
      b.cms_attributes ++ [{ type := .recipient_nonce, values := [.octets nonce] }] }

def PKIMessageBuilder.transaction_id (b : PKIMessageBuilder)
    (trans_id : Option String) (uuid : String) : PKIMessageBuilder :=
  let t := trans_id.getD uuid
  { b with cms_attributes :=
      b.cms_attributes ++ [{ type := .transaction_id, values := [.str t] }] }

/-- `PKIMessageBuilder._build_signerinfos`: each signer signs in turn; the
attribute list is threaded through the calls because `Signer.sign` mutates
the one list object shared with the builder, so every signer after the first
receives the list already extended by its predecessors. -/
def PKIMessageBuilder.build_signerinfos (ops : CryptoOps) (content : Bytes)
    (content_digest : Bytes) : List Signer → List CMSAttribute →
    List SignerInfo × List CMSAttribute
  | [], attrs => ([], attrs)
  | s :: rest, attrs =>
    let r1 := Signer.sign ops s content contentTypeData content_digest attrs
    let r2 := PKIMessageBuilder.build_signerinfos ops content content_digest rest r1.2
    (r1.1 :: r2.1, r2.2)

structure ContentInfoData where
  content_type : String
  content : Bytes
  deriving DecidableEq, Repr

structure SignedData where
  version : Nat
  certificates : List Certificate
  signer_infos : List SignerInfo
  digest_algorithms : List String
  encap_content_info : ContentInfoData
  deriving DecidableEq, Repr

structure PKIMessage where
  content_type : String
  content : SignedData
  deriving DecidableEq, Repr

/-- The DER of the inner ContentInfo wrapping the EnvelopedData
(`pkienvelope_content_info.dump()` in finalize). -/
def pkiEnvelopeContentInfoDump (b : PKIMessageBuilder) : Bytes :=
  contentInfoDump "enveloped_data" (envelopedDataOptDump b.pki_envelope)

/-- `PKIMessageBuilder.finalize`: wraps the pkcsPKIEnvelope in the inner
ContentInfo, computes the content digest with a hardcoded SHA-1
(`hashes.Hash(hashes.SHA1(), ...)` in the source, regardless of the signer
digest algorithms), builds the signer infos and the SignedData with
digest_algorithms fixed to sha1, and returns the pkiMessage together with the
post-call builder state: the source mutates `self._cms_attributes` in place
through `Signer.sign`, which this embedding records in the returned state. -/
def PKIMessageBuilder.finalize (ops : CryptoOps) (b : PKIMessageBuilder) :
    PKIMessage × PKIMessageBuilder :=
  let envci := pkiEnvelopeContentInfoDump b
  let encap_info : ContentInfoData := { content_type := "data", content := envci }
  let d := ops.hash "sha1" envci
  let r := PKIMessageBuilder.build_signerinfos ops envci d b.signers b.cms_attributes
  ({ content_type := "signed_data"
     content :=
      { version := 1
        certificates := b.certificates
        signer_infos := r.1
        digest_algorithms := ["sha1"]
        encap_content_info := encap_info } },
   { b with cms_attributes := r.2 })

def signedDataDump (sd : SignedData) : Bytes :=
  sd.version :: listDump (sd.certificates.map certDump)
    ++ listDump (sd.signer_infos.map signerInfoDump)
    ++ listDump (sd.digest_algorithms.map strDump)
    ++ contentInfoDump sd.encap_content_info.content_type sd.encap_content_info.content

/-- Model DER of the delivered pkiMessage (outer ContentInfo). -/
def pkiMessageDump (m : PKIMessage) : Bytes :=
  strDump m.content_type ++ signedDataDump m.content

/-- The failure modes `SCEPMessage.parse` can actually raise: failed `assert`
statements, ValueError (unsupported digest algorithm, invalid messageType
enum value, dump of an absent field), and the AttributeError raised when the
attached certificates contain no certificate whose serial matches the signer
sid (the source then calls `.public_key()` on `None`). There is no
BadSignature outcome: the source builds a verifier over the DER of
signed_attrs but the `verifier.verify()` call is commented out. -/
inductive ParseError
  | assertionError
  | valueError
  | noneTypeError
  | indexError
  deriving DecidableEq, Repr

/-- The decoded outer ContentInfo handed to `SCEPMessage.parse` (DER decoding
itself is done by the external asn1crypto library). -/
structure ParseInput where
  content_type : String
  certificates : List Certificate
  signer_infos : List SignerInfo
  encap_content_type : String
  encap_content : Bytes
  deriving DecidableEq, Repr

structure SCEPMessage where
  transaction_id : Option Native
  message_type : MessageType
  sender_nonce : Option Native
  recipient_nonce : Option Native
  pki_status : Option Native
  fail_info : Option Native
  signer_info : Option SignerInfo
  signed_data : Bytes
  certificates : List Certificate
  deriving DecidableEq, Repr

/-- The `SCEPMessage.__init__` defaults: message_type defaults to CertRep,
everything else unset. -/
def SCEPMessage.init : SCEPMessage :=
  { transaction_id := none
    message_type := .CertRep
    sender_nonce := none
    recipient_nonce := none
    pki_status := none
    fail_info := none
    signer_info := none
    signed_data := []
    certificates := [] }

/-- `signed_attr['values'][0].native`: indexing an empty value set raises. -/
def attrValue0 (a : CMSAttribute) : Except ParseError Native :=
  match a.values with
  | [] => .error .indexError
  | v :: _ => .ok v.native

/-- One arm of the attribute-extraction chain at the bottom of the signer
loop in `SCEPMessage.parse`. -/
def extractAttr (msg : SCEPMessage) (a : CMSAttribute) : Except ParseError SCEPMessage :=
  match a.type with
  | .transaction_id => (attrValue0 a).map fun v => { msg with transaction_id := some v }
  | .message_type =>
    match attrValue0 a with
    | .error e => .error e
    | .ok v =>
      match MessageType.ofNative v with
      | some mt => .ok { msg with message_type := mt }
      | none => .error .valueError
  | .sender_nonce => (attrValue0 a).map fun v => { msg with sender_nonce := some v }
  | .recipient_nonce => (attrValue0 a).map fun v => { msg with recipient_nonce := some v }
  | .pki_status => (attrValue0 a).map fun v => { msg with pki_status := some v }
  | .fail_info => (attrValue0 a).map fun v => { msg with fail_info := some v }
  | _ => .ok msg

def extractAttrs : SCEPMessage → List CMSAttribute → Except ParseError SCEPMessage
  | msg, [] => .ok msg
  | msg, a :: rest =>
    match extractAttr msg a with
    | .error e => .error e
    | .ok m => extractAttrs m rest

/-- One iteration of the signer loop in `SCEPMessage.parse`. The source also
constructs an RSA verifier, feeds it `signer_info['signed_attrs'].dump()` and
computes two digests here, but `verifier.verify()` is commented out, so those
computations affect nothing observable; only the failure conditions of that
block (missing matching certificate, wrong encapsulated content type, absent
signed_attrs being dumped) and the attribute extraction remain. -/
def processSignerInfo (certs : Option (List Certificate))
    (encap_content_type : String) (msg : SCEPMessage) (si : SignerInfo) :
    Except ParseError SCEPMessage :=
  match si.sid with
  | .subject_key_identifier _ => .error .assertionError
  | .issuer_and_serial_number ias =>
    let signer_cert := (certs.getD []).find? fun c =>
      c.ias.serial_number = ias.serial_number
    if ¬(si.digest_algorithm = "sha1" ∨ si.digest_algorithm = "sha256" ∨
        si.digest_algorithm = "sha512") then
      .error .valueError
    else if si.signature_algorithm ≠ "rsassa_pkcs1v15" then
      .error .assertionError
    else
      let verifyBlock : Except ParseError Unit :=
        match certs with
        | none => .ok ()
        | some _ =>
          match signer_cert with
          | none => .error .noneTypeError
          | some _ =>
            if encap_content_type ≠ "data" then .error .assertionError
            else
              match si.signed_attrs with
              | none => .error .valueError
              | some _ => .ok ()
      match verifyBlock with
      | .error e => .error e
      | .ok _ =>
        let msg1 := { msg with signer_info := some si }
        match si.signed_attrs with
        | some attrs => extractAttrs msg1 attrs
        | none => .ok msg1

def processSignerInfos (certs : Option (List Certificate))
    (encap_content_type : String) :
    SCEPMessage → List SignerInfo → Except ParseError SCEPMessage
  | msg, [] => .ok msg
  | msg, si :: rest =>
    match processSignerInfo certs encap_content_type msg si with
    | .error e => .error e
    | .ok m => processSignerInfos certs encap_content_type m rest

/-- `SCEPMessage.parse` over the decoded outer ContentInfo: requires
content_type signed_data, collects any attached certificates (an empty
certificate set leaves `certs = None`), runs the signer loop and retains the
encapsulated content octets. -/
def SCEPMessage.parse (pin : ParseInput) : Except ParseError SCEPMessage :=
  if pin.content_type ≠ "signed_data" then .error .assertionError
  else
    let certs : Option (List Certificate) :=
      if pin.certificates.length > 0 then some pin.certificates else none
    let msg0 := { SCEPMessage.init with certificates := certs.getD [] }
    match processSignerInfos certs pin.encap_content_type msg0 pin.signer_infos with
    | .error e => .error e
    | .ok m => .ok { m with signed_data := pin.encap_content }

/-- The failure modes of `SCEPMessage.get_decrypted_envelope_data`: indexing
an empty recipient_infos list, the rsa assert, cipher construction on an
unrecognised cipher (TypeError), and the ValueError raised by the cipher
library for a bad key length, a bad IV length or a ciphertext that is not a
multiple of the block size. There is no UnknownRecipient outcome and no
BadPadding outcome. -/
inductive DecryptError
  | indexError
  | assertionError
  | typeError
  | valueError
  deriving DecidableEq, Repr

/-- The decoded inner ContentInfo produced by `ContentInfo.load` on the
retained encapsulated content octets. -/
structure ContentInfoEnveloped where
  content_type : String
  content : EnvelopedData
  deriving DecidableEq, Repr

/-- `SCEPMessage.get_decrypted_envelope_data`: always takes
`recipient_infos[0]` — the `certificate` parameter is never read — decrypts
the wrapped key with the supplied RSA key, CBC-decrypts the encrypted content
and returns the raw result without removing the PKCS#7 padding. -/
def SCEPMessage.get_decrypted_envelope_data (ops : CryptoOps)
    (certificate : Certificate) (key : Nat) (encap : ContentInfoEnveloped) :
    Except DecryptError Bytes :=
  match encap.content.recipient_infos with
  | [] => .error .indexError
  | recipient_info :: _ =>
    if recipient_info.key_encryption_algorithm ≠ "rsa" then .error .assertionError
    else
      let plain_key := ops.rsaDecrypt key recipient_info.encrypted_key
      let eci := encap.content.encrypted_content_info
      let cipherName := encryptionCipher eci.algorithm
      if cipherName = "aes" ∨ cipherName = "tripledes" then
        if cipherName = "aes" ∧
            ¬(plain_key.length = 16 ∨ plain_key.length = 24 ∨ plain_key.length = 32) then
          .error .valueError
        else if cipherName = "tripledes" ∧
            ¬(plain_key.length = 8 ∨ plain_key.length = 16 ∨ plain_key.length = 24) then
          .error .valueError
        else
          let bs := cipherBlockSize cipherName
          if eci.iv.length ≠ bs then .error .valueError
          else if eci.encrypted_content.length % bs ≠ 0 then .error .valueError
          else .ok (cbcDecrypt (ops.blockDec cipherName plain_key) bs eci.iv
            eci.encrypted_content)
      else .error .typeError

/-- Concrete primitives used for evaluating the embedding on test inputs:
hashes are tagged by the digest-name length, RSA key transport adds and
subtracts the key handle, the block cipher shifts every byte by one (the
decrypt direction is its exact inverse). -/
def testOps : CryptoOps :=
  { hash := fun name b => name.length :: b
    rsaSign := fun key _ m => key :: m
    rsaEncrypt := fun pub b => b.map (· + pub)
    rsaDecrypt := fun priv b => b.map (· - priv)
    blockEnc := fun _ _ b => b.map (· + 1)
    blockDec := fun _ _ b => b.map (· - 1) }

def rngId : Nat → Nat := fun i => i

def certC1 : Certificate :=
  { ias := { issuer := [1], serial_number := 7 }, public_key := 5 }

/-- A SignerInfo whose IssuerAndSerialNumber matches `certC1`, carrying one
transaction_id signed attribute, with the given signature octets. -/
def signerInfoC1 (sig : Bytes) : SignerInfo :=
  { version := 1
    sid := .issuer_and_serial_number { issuer := [1], serial_number := 7 }
    digest_algorithm := "sha1"
    signed_attrs := some [{ type := .transaction_id, values := [.str "abcd-1234"] }]
    signature_algorithm := "rsassa_pkcs1v15"
    signature := sig }

def parseInputC1 (sig : Bytes) : ParseInput :=
  { content_type := "signed_data"
    certificates := [certC1]
    signer_infos := [signerInfoC1 sig]
    encap_content_type := "data"
    encap_content := [9, 9] }

def signerSha256 : Signer :=
  { certificate := { ias := { issuer := [2], serial_number := 3 }, public_key := 9 }
    private_key := 11
    digest_algorithm_id := .sha256 }

def builderC3 : PKIMessageBuilder :=
  { signers := [signerSha256]
    cms_attributes := []
    certificates := [signerSha256.certificate]
    pki_envelope := none }

def certC4 : Certificate :=
  { ias := { issuer := [3], serial_number := 2 }, public_key := 5 }

def envBuilderC4 : PKCSPKIEnvelopeBuilder :=
  { data := some [97, 98, 99]
    encryption_algorithm_id := some "tripledes_3key"
    recipients := [certC4] }

def envelopedOf : Except EnvError (EnvelopedData × Bytes × Bytes) → Option EnvelopedData
  | .ok r => some r.1
  | .error _ => none

def recipientInfosOf :
    Except EnvError (EnvelopedData × Bytes × Bytes) → Option (List RecipientInfo)
  | .ok r => some r.1.recipient_infos
  | .error _ => none

def envBuilderC8 : PKCSPKIEnvelopeBuilder :=
  { data := some [1, 2, 3, 4]
    encryption_algorithm_id := some "aes128_cbc"
    recipients := [] }

def signerA : Signer :=
  { certificate := { ias := { issuer := [4], serial_number := 1 }, public_key := 1 }
    private_key := 1
    digest_algorithm_id := .sha1 }

def signerB : Signer :=
  { certificate := { ias := { issuer := [4], serial_number := 2 }, public_key := 2 }
    private_key := 2
    digest_algorithm_id := .sha1 }

def mtAttr19 : CMSAttribute := { type := .message_type, values := [.str "19"] }

def builderTwoSigners : PKIMessageBuilder :=
  { signers := [signerA, signerB]
    cms_attributes := [mtAttr19]
    certificates := [signerA.certificate, signerB.certificate]
    pki_envelope := none }

def builderOneSigner : PKIMessageBuilder :=
  { signers := [signerA]
    cms_attributes := [mtAttr19]
    certificates := [signerA.certificate]
    pki_envelope := none }

/-- The content-type attribute `Signer.sign` prepends. -/
def ctAttr : CMSAttribute := { type := .content_type, values := [contentTypeData] }

/-- The message-digest attribute carrying digest `d`. -/
def mdAttrVal (d : Bytes) : CMSAttribute :=
  { type := .message_digest, values := [.octets d] }

/-- The message-digest attribute `finalize` produces for builder state `b`
under primitives `ops` (always the SHA-1 digest of the inner ContentInfo). -/
def mdAttrOf (ops : CryptoOps) (b : PKIMessageBuilder) : CMSAttribute :=
  mdAttrVal (ops.hash "sha1" (pkiEnvelopeContentInfoDump b))

/-- `n` copies of the content-type / message-digest pair. -/
def mdPairs (ct md : CMSAttribute) : Nat → List CMSAttribute
  | 0 => []
  | n + 1 => ct :: md :: mdPairs ct md n

theorem urandom_length (rng : Nat → Nat) (off n : Nat) : (urandom rng off n).length = n := by
  simp [urandom]

theorem mdPairs_append_pair (ct md : CMSAttribute) (n : Nat) :
    mdPairs ct md n ++ [ct, md] = ct :: md :: mdPairs ct md n := by
  induction n with
  | zero => rfl
  | succ n ih => simp only [mdPairs, List.cons_append, ih]

theorem build_signerinfos_attrs (ops : CryptoOps) (content d : Bytes) :
    ∀ (sl : List Signer) (attrs : List CMSAttribute),
      (PKIMessageBuilder.build_signerinfos ops content d sl attrs).2 =
        mdPairs ctAttr (mdAttrVal d) sl.length ++ attrs := by
  intro sl
  induction sl with
  | nil => intro attrs; rfl
  | cons s rest ih =>
    intro attrs
    have step : (PKIMessageBuilder.build_signerinfos ops content d (s :: rest) attrs).2 =
        (PKIMessageBuilder.build_signerinfos ops content d rest
          (ctAttr :: mdAttrVal d :: attrs)).2 := rfl
    rw [step, ih]
    have pair : (ctAttr :: mdAttrVal d :: attrs) = [ctAttr, mdAttrVal d] ++ attrs := rfl
    rw [pair, ← List.append_assoc, mdPairs_append_pair]
    simp [mdPairs]

/-- C1: refuted on the code — `SCEPMessage.parse` never verifies the RSA
signature. On a pkiMessage whose SignerInfo matches an attached certificate,
parsing succeeds both with the original signature `[4]` and with the
bit-flipped signature `[5]` (`4 ^^^ 5 = 1`, one flipped bit), producing the
same parsed fields; no BadSignature is ever reported (the `ParseError` type
of the embedding has no such outcome because the source comments out
`verifier.verify()`). -/
theorem scep_parse_accepts_tampered_signature :
    SCEPMessage.parse (parseInputC1 [4]) =
      .ok { SCEPMessage.init with
              transaction_id := some (.str "abcd-1234")
              signer_info := some (signerInfoC1 [4])
              signed_data := [9, 9]
              certificates := [certC1] } ∧
    SCEPMessage.parse (parseInputC1 [5]) =
      .ok { SCEPMessage.init with
              transaction_id := some (.str "abcd-1234")
              signer_info := some (signerInfoC1 [5])
              signed_data := [9, 9]
              certificates := [certC1] } := by
  constructor <;> rfl

/-- C2: refuted on the code for 3DES — `finalize` draws only `os.urandom(8)`,
an 8-byte key, for the three-key 3DES algorithm id (the claim and spec say
24), while the AES key lengths match the claim (16 and 32). -/
theorem finalize_symmetric_key_lengths :
    ∀ (ops : CryptoOps) (rng : Nat → Nat) (data : Bytes) (recipients : List Certificate),
      (∃ r, PKCSPKIEnvelopeBuilder.finalize ops rng
          { data := some data, encryption_algorithm_id := some "tripledes_3key",
            recipients := recipients } = .ok r ∧ r.2.1.length = 8) ∧
      (∃ r, PKCSPKIEnvelopeBuilder.finalize ops rng
          { data := some data, encryption_algorithm_id := some "aes128_cbc",
            recipients := recipients } = .ok r ∧ r.2.1.length = 16) ∧
      (∃ r, PKCSPKIEnvelopeBuilder.finalize ops rng
          { data := some data, encryption_algorithm_id := some "aes256_cbc",
            recipients := recipients } = .ok r ∧ r.2.1.length = 32) ∧
      (8 : Nat) ≠ 24 := by
  intro ops rng data recipients
  refine ⟨⟨_, rfl, ?_⟩, ⟨_, rfl, ?_⟩, ⟨_, rfl, ?_⟩, by omega⟩ <;>
    simp [urandom_length]

/-- C3: refuted on the code — `PKIMessageBuilder.finalize` computes the
content digest with a hardcoded SHA-1. For a signer whose declared digest
algorithm is sha256, the emitted message-digest signed attribute carries the
SHA-1 digest of the inner ContentInfo, which differs from the sha256 digest
of the same bytes under the concrete primitives. -/
theorem finalize_digest_ignores_signer_algorithm :
    ((PKIMessageBuilder.finalize testOps builderC3).1.content.signer_infos.map
        fun si => (si.digest_algorithm, si.signed_attrs)) =
      [("sha256",
        some [ctAttr, mdAttrVal (testOps.hash "sha1" (pkiEnvelopeContentInfoDump builderC3))])] ∧
    testOps.hash "sha1" (pkiEnvelopeContentInfoDump builderC3) ≠
      testOps.hash "sha256" (pkiEnvelopeContentInfoDump builderC3) := by
  constructor
  · rfl
  · decide

/-- C4: refuted on the code — `get_decrypted_envelope_data` never strips the
PKCS#7 padding. Enveloping the plaintext `[97, 98, 99]` under 3DES and
decrypting with the matching recipient key returns the padded block
`[97, 98, 99, 5, 5, 5, 5, 5]`, not the original plaintext; no BadPadding
outcome exists (the `DecryptError` type of the embedding has none because
the source returns the raw decryptor output). -/
theorem decrypt_envelope_returns_padded_plaintext :
    (envelopedOf (PKCSPKIEnvelopeBuilder.finalize testOps rngId envBuilderC4)).map
        (fun ed => SCEPMessage.get_decrypted_envelope_data testOps certC4 5
          { content_type := "enveloped_data", content := ed }) =
      some (.ok [97, 98, 99, 5, 5, 5, 5, 5]) ∧
    ([97, 98, 99, 5, 5, 5, 5, 5] : Bytes) ≠ [97, 98, 99] := by
  constructor
  · rfl
  · decide

/-- C5: refuted on the code — `get_decrypted_envelope_data` never reads its
`certificate` parameter and always selects `recipient_infos[0]`: the result
is identical for any two supplied recipient certificates, and identical for
any two envelopes agreeing on the first RecipientInfo; no UnknownRecipient
outcome exists in the `DecryptError` type of the embedding. -/
theorem decrypt_envelope_ignores_recipient_certificate :
    (∀ (ops : CryptoOps) (c1 c2 : Certificate) (key : Nat) (encap : ContentInfoEnveloped),
      SCEPMessage.get_decrypted_envelope_data ops c1 key encap =
        SCEPMessage.get_decrypted_envelope_data ops c2 key encap) ∧
    (∀ (ops : CryptoOps) (c : Certificate) (key v : Nat) (ri : RecipientInfo)
        (rest1 rest2 : List RecipientInfo) (eci : EncryptedContentInfo),
      SCEPMessage.get_decrypted_envelope_data ops c key
          { content_type := "enveloped_data",
            content := { version := v, recipient_infos := ri :: rest1,
                         encrypted_content_info := eci } } =
        SCEPMessage.get_decrypted_envelope_data ops c key
          { content_type := "enveloped_data",
            content := { version := v, recipient_infos := ri :: rest2,
                         encrypted_content_info := eci } }) := by
  exact ⟨fun _ _ _ _ _ => rfl, fun _ _ _ _ _ _ _ _ => rfl⟩

/-- C6: confirmed — `PKIMessageBuilder.pki_status` with status FAILURE and no
failure_info raises (ValueError in the source; MissingFailInfo in the spec
taxonomy) for every builder state. The setter takes no `CryptoOps`, so the
rejection happens in the attribute setter itself, at build time, before any
cryptography can run and before any message is emitted. -/
theorem pki_status_failure_without_failinfo_errors :
    ∀ (b : PKIMessageBuilder),
      PKIMessageBuilder.pki_status b .FAILURE none = .error .missingFailInfo := by
  intro b
  rfl

/-- C7 counterexample: with two signers, the second signedAttrs sequence is
content-type, message-digest, content-type, message-digest, messageType —
not content-type, message-digest followed by the accumulated SCEP attributes
— because `Signer.sign` mutates the shared list in place. -/
theorem second_signer_attrs_not_canonical :
    ((PKIMessageBuilder.finalize testOps builderTwoSigners).1.content.signer_infos.map
        fun si => si.signed_attrs) =
      [some [ctAttr, mdAttrOf testOps builderTwoSigners, mtAttr19],
       some [ctAttr, mdAttrOf testOps builderTwoSigners, ctAttr,
             mdAttrOf testOps builderTwoSigners, mtAttr19]] ∧
    some [ctAttr, mdAttrOf testOps builderTwoSigners, ctAttr,
          mdAttrOf testOps builderTwoSigners, mtAttr19] ≠
      some [ctAttr, mdAttrOf testOps builderTwoSigners, mtAttr19] := by
  constructor
  · rfl
  · decide

/-- C7 (amended): the claimed signedAttrs layout — content-type, then
message-digest, then the accumulated SCEP attributes in insertion order —
holds for the first signer of `finalize`; every later signer receives the
shared list already extended by an extra content-type / message-digest pair
per preceding signer. -/
theorem first_signer_attrs_canonical :
    ∀ (ops : CryptoOps) (b : PKIMessageBuilder) (s : Signer) (rest : List Signer),
      b.signers = s :: rest →
      ∃ si sis,
        (PKIMessageBuilder.finalize ops b).1.content.signer_infos = si :: sis ∧
        si.signed_attrs = some (ctAttr :: mdAttrOf ops b :: b.cms_attributes) := by
  intro ops b s rest h
  obtain ⟨sg, attrs, certs, env⟩ := b
  simp only at h
  subst h
  exact ⟨_, _, rfl, rfl⟩

theorem first_signer_attrs_canonical_witness :
    builderTwoSigners.signers = signerA :: [signerB] ∧
    ∃ si sis,
      (PKIMessageBuilder.finalize testOps builderTwoSigners).1.content.signer_infos =
        si :: sis ∧
      si.signed_attrs =
        some (ctAttr :: mdAttrOf testOps builderTwoSigners ::
          builderTwoSigners.cms_attributes) :=
  ⟨rfl, first_signer_attrs_canonical testOps builderTwoSigners signerA [signerB] rfl⟩

/-- C8 counterexample: a builder with data and algorithm set but an empty
recipient list finalizes successfully, producing an EnvelopedData whose
recipient_infos is empty — it does not fail (the `EnvError` type of the
embedding has no NoRecipients outcome because the source has no such check). -/
theorem finalize_without_recipients_succeeds :
    recipientInfosOf (PKCSPKIEnvelopeBuilder.finalize testOps rngId envBuilderC8) =
      some [] := by
  rfl

/-- C8 (amended): for every supported content-encryption algorithm,
`PKCSPKIEnvelopeBuilder.finalize` on a builder with an empty recipient list
succeeds and returns an EnvelopedData with an empty recipient_infos list
instead of raising a NoRecipients error. -/
theorem finalize_empty_recipients_yields_empty_recipient_infos :
    ∀ (ops : CryptoOps) (rng : Nat → Nat) (data : Bytes) (alg : String),
      alg = "tripledes_3key" ∨ alg = "aes128_cbc" ∨ alg = "aes256_cbc" →
      ∃ r, PKCSPKIEnvelopeBuilder.finalize ops rng
          { data := some data, encryption_algorithm_id := some alg, recipients := [] } =
          .ok r ∧ r.1.recipient_infos = [] := by
  intro ops rng data alg h
  rcases h with h | h | h <;> subst h <;> exact ⟨_, rfl, rfl⟩

theorem finalize_empty_recipients_witness :
    ("aes128_cbc" = "tripledes_3key" ∨ "aes128_cbc" = "aes128_cbc" ∨
      "aes128_cbc" = "aes256_cbc") ∧
    ∃ r, PKCSPKIEnvelopeBuilder.finalize testOps rngId
        { data := some [1, 2, 3, 4], encryption_algorithm_id := some "aes128_cbc",
          recipients := [] } = .ok r ∧ r.1.recipient_infos = [] :=
  ⟨Or.inr (Or.inl rfl),
    finalize_empty_recipients_yields_empty_recipient_infos testOps rngId [1, 2, 3, 4]
      "aes128_cbc" (Or.inr (Or.inl rfl))⟩

/-- C9 counterexample: two successive `finalize` calls on the same builder do
not emit identical bytes — the first call mutates the stored attribute list,
so the second call signs a longer attribute sequence and the model DER of the
two pkiMessages differs. -/
theorem successive_finalize_calls_differ :
    pkiMessageDump (PKIMessageBuilder.finalize testOps builderOneSigner).1 ≠
      pkiMessageDump (PKIMessageBuilder.finalize testOps
        (PKIMessageBuilder.finalize testOps builderOneSigner).2).1 := by
  decide

/-- C9 (amended): with the random input and the cryptographic primitives
fixed, `finalize` is a deterministic function of the builder state — two runs
on equal builder states emit identical model-DER bytes. (The successive-call
clause of the claim fails: see the counterexample, finalize mutates the
attribute list, so the state of the second call is no longer equal.) -/
theorem finalize_deterministic_on_equal_states :
    ∀ (ops : CryptoOps) (b1 b2 : PKIMessageBuilder), b1 = b2 →
      pkiMessageDump (PKIMessageBuilder.finalize ops b1).1 =
        pkiMessageDump (PKIMessageBuilder.finalize ops b2).1 := by
  intro ops b1 b2 h
  rw [h]

theorem finalize_deterministic_witness :
    builderOneSigner = builderOneSigner ∧
    pkiMessageDump (PKIMessageBuilder.finalize testOps builderOneSigner).1 =
      pkiMessageDump (PKIMessageBuilder.finalize testOps builderOneSigner).1 :=
  ⟨rfl, finalize_deterministic_on_equal_states testOps builderOneSigner builderOneSigner rfl⟩

/-- C10: confirmed — for every builder with at least one signer, `finalize`
returns a builder state whose stored attribute list has been extended in
place: it now begins with a content-type attribute and the message-digest
attribute (one such pair per signer), with the original accumulated
attributes as its tail, because `Signer.sign` aliases and mutates the one
list shared with the builder and with every later signer and finalize call. -/
theorem finalize_prepends_attributes_to_builder_list :
    ∀ (ops : CryptoOps) (b : PKIMessageBuilder) (s : Signer) (rest : List Signer),
      b.signers = s :: rest →
      ∃ mid, (PKIMessageBuilder.finalize ops b).2.cms_attributes =
        ctAttr :: mdAttrOf ops b :: (mid ++ b.cms_attributes) := by
  intro ops b s rest h
  refine ⟨mdPairs ctAttr (mdAttrOf ops b) rest.length, ?_⟩
  have hfin : (PKIMessageBuilder.finalize ops b).2.cms_attributes =
      (PKIMessageBuilder.build_signerinfos ops (pkiEnvelopeContentInfoDump b)
        (ops.hash "sha1" (pkiEnvelopeContentInfoDump b)) b.signers b.cms_attributes).2 := rfl
  rw [hfin, h, build_signerinfos_attrs]
  simp [mdPairs, mdAttrOf]

theorem finalize_prepends_attributes_witness :
    builderOneSigner.signers = signerA :: [] ∧
    ∃ mid, (PKIMessageBuilder.finalize testOps builderOneSigner).2.cms_attributes =
      ctAttr :: mdAttrOf testOps builderOneSigner ::
        (mid ++ builderOneSigner.cms_attributes) :=
  ⟨rfl, finalize_prepends_attributes_to_builder_list testOps builderOneSigner signerA [] rfl⟩
